import Mathlib

/-!
Verification of the text-to-structured-data extraction layer and the
aggregation pipeline of `PDF_Mandiant_Report.py`.

The Python functions are shallowly embedded as Lean functions over `List Char`
(one `Char` per Python code point).  Regular-expression searches are embedded
as deterministic scanning functions; each matcher's doc comment records the
regex it implements and the backtracking analysis that makes the deterministic
form equivalent.  A parse that can raise a Python exception is embedded with
`Except Unit` (the error value standing for `ValueError`).

Modelling scope (documented simplifications, none affecting the claims):
* `\d` and `int()` are modelled over ASCII digits;
* Python whitespace (`str.strip`, regex `\s`) is modelled by the Unicode
  whitespace set `pySpaceChars` below;
* `float()` of a digits-and-dots string is modelled exactly over `ℚ`;
  such a string converts successfully iff it has at least one digit and at
  most one dot, which is exact for the strings the regexes can capture.
-/

/-- Characters for which Python `str.isspace()` (and regex `\s`) holds,
as used by `str.strip()` and the `\s*` pieces of the regexes. -/
def pySpaceChars : List Char :=
  [' ', '\t', '\n', '\r', '\x0b', '\x0c', '\x1c', '\x1d', '\x1e', '\x1f',
   '\u0085', ' ', ' ', ' ', ' ', ' ', ' ',
   ' ', ' ', ' ', ' ', ' ', ' ', ' ',
   ' ', ' ', ' ', ' ', '　']

def isPySpace (c : Char) : Bool := pySpaceChars.contains c

/-- Python `str.strip()` with no argument: remove leading and trailing
whitespace. -/
def pyStrip (s : List Char) : List Char :=
  ((s.dropWhile isPySpace).reverse.dropWhile isPySpace).reverse

/-- Skip a maximal run of whitespace: the deterministic reading of a greedy
`\s*` that is followed by a piece that cannot start with whitespace. -/
def dropPyWs (s : List Char) : List Char := s.dropWhile isPySpace

/-- Python `int()` on a nonempty ASCII digit string. -/
def natOfDigits (ds : List Char) : Nat :=
  ds.foldl (fun n c => 10 * n + (c.toNat - 48)) 0

/-- Python `float()` on a string made of ASCII digits and dots (the only
strings the regex group `[\d\.]+` can capture).  Such a string converts
iff it has at least one digit and at most one dot; otherwise `float()`
raises `ValueError`, modelled by `none`. -/
def pyFloat (f : List Char) : Option ℚ :=
  if f.any Char.isDigit = false then none
  else if f.count '.' = 0 then some (natOfDigits f)
  else if f.count '.' = 1 then
    let ipart := f.takeWhile (fun c => c ≠ '.')
    let fpart := f.drop (ipart.length + 1)
    some ((natOfDigits ipart : ℚ) + (natOfDigits fpart : ℚ) / (10 : ℚ) ^ fpart.length)
  else none

/-- Line-break characters recognised by Python `str.splitlines()`. -/
def pyLineBreakChars : List Char :=
  ['\n', '\r', '\x0b', '\x0c', '\x1c', '\x1d', '\x1e', '\u0085', ' ', ' ']

def isPyLineBreak (c : Char) : Bool := pyLineBreakChars.contains c

/-- Worker for `pySplitlines`; `acc` holds the current line reversed. -/
def pySplitlinesGo : List Char → List Char → List (List Char)
  | [], acc => if acc.isEmpty then [] else [acc.reverse]
  | '\r' :: '\n' :: rest, acc => acc.reverse :: pySplitlinesGo rest []
  | c :: rest, acc =>
    if isPyLineBreak c then acc.reverse :: pySplitlinesGo rest []
    else pySplitlinesGo rest (c :: acc)

/-- Python `str.splitlines()`: split at line-break characters (with `\r\n`
counting as a single break); a trailing break produces no extra empty line. -/
def pySplitlines (s : List Char) : List (List Char) := pySplitlinesGo s []

/-- Worker for `pySplit`, structurally recursive on fuel; with
`xs.length ≤ fuel` the fuel branch is never reached. -/
def pySplitFuel (sep : List Char) : Nat → List Char → List Char → List (List Char)
  | 0, xs, acc => [acc.reverse ++ xs]
  | _ + 1, [], acc => [acc.reverse]
  | fuel + 1, c :: rest, acc =>
    if sep.isPrefixOf (c :: rest) ∧ sep ≠ [] then
      acc.reverse :: pySplitFuel sep fuel (List.drop sep.length (c :: rest)) []
    else
      pySplitFuel sep fuel rest (c :: acc)

/-- Python `str.split(sep)` for a nonempty separator: split at each
leftmost non-overlapping occurrence of `sep`. -/
def pySplit (sep xs : List Char) : List (List Char) :=
  pySplitFuel sep xs.length xs []

/-- `afterLit lit s`: if `lit` is a prefix of `s`, the remainder of `s`
after it.  Used to anchor a regex literal at a candidate position. -/
def afterLit (lit s : List Char) : Option (List Char) :=
  if lit.isPrefixOf s then some (s.drop lit.length) else none

/-- `re.search` without `^`: try the pointwise matcher `f` at position 0,
then 1, ..., returning the result at the leftmost position where the
whole pattern matches (`f` models matching the whole pattern at one
position). -/
def searchScan {α : Type} (f : List Char → Option α) : List Char → Option α
  | [] => f []
  | c :: rest =>
    match f (c :: rest) with
    | some v => some v
    | none => searchScan f rest

-- ==========================================
-- Record types (§3 of the spec)
-- ==========================================

structure CategoryRecord where
  Categoria : String
  Cantidad_IPs : Nat
  Score_Promedio : ℚ
deriving DecidableEq

structure IndicatorRecord where
  IoC : String
  Score : Nat
deriving DecidableEq

structure CountryDetail where
  ip : String
  location : String
  isp : String
deriving DecidableEq

structure CountryCount where
  Country : String
  Count : Nat
deriving DecidableEq

structure GeoSummary where
  total : Option String
  rate : Option String
  countries : Option String
deriving DecidableEq

structure GeoData where
  summary : GeoSummary
  details : List (String × List CountryDetail)
  df_counts : List CountryCount
deriving DecidableEq

-- ==========================================
-- parse_categories_report
-- ==========================================

/-- Match of `re.search(r"^\s*([^|=]+?)\s*\|\s*(\d+)\s*\|\s*([\d\.]+)", line)`
on a single line (no line breaks, so `^` anchors at position 0 only).
Backtracking analysis giving this deterministic form: writing `q` for the
position of the first `|` of the line and `P` for the text before it, the
initial `\s*` must stay inside leading whitespace and everything between
the lazy group 1 and the matched `|` must be whitespace, so group 1 must
cover all of `P` stripped; hence the pattern matches iff `q` exists,
`q ≥ 1`, and `P` contains no `=`, and then `group(1).strip()` equals
`pyStrip P` (the empty string when `P` is all whitespace).  After each `|`
a greedy `\s*` must reach the next required character class, and the two
numeric groups are maximal nonempty runs.  Returns
`(group(1).strip(), group(2), group(3))`. -/
def matchCatLine (line : List Char) : Option (List Char × List Char × List Char) :=
  let P := line.takeWhile (fun c => c ≠ '|')
  if P.length = line.length then none
  else if P.length = 0 then none
  else if P.contains '=' then none
  else
    let r1 := dropPyWs (line.drop (P.length + 1))
    let d := r1.takeWhile Char.isDigit
    if d.isEmpty then none
    else
      match dropPyWs (r1.drop d.length) with
      | '|' :: r3 =>
        let f := (dropPyWs r3).takeWhile (fun c => c.isDigit || c = '.')
        if f.isEmpty then none else some (pyStrip P, d, f)
      | _ => none

/-- The `for line in text_content.splitlines()` loop of
`parse_categories_report`: non-matching lines are skipped; a matching line
appends a record, where `float(group(3))` may raise `ValueError`
(modelled by `Except.error ()`), aborting the whole parse. -/
def catLoop : List (List Char) → List CategoryRecord → Except Unit (List CategoryRecord)
  | [], acc => Except.ok acc
  | l :: ls, acc =>
    match matchCatLine l with
    | none => catLoop ls acc
    | some (g1, g2, g3) =>
      match pyFloat g3 with
      | none => Except.error ()
      | some q => catLoop ls (acc ++ [⟨String.mk g1, natOfDigits g2, q⟩])

/-- `parse_categories_report` of the source: one record per line matching
the category regex; raises `ValueError` (here `Except.error ()`) when a
matched score group is not a valid float. -/
def parse_categories_report (text : String) : Except Unit (List CategoryRecord) :=
  catLoop (pySplitlines text.data) []

-- ==========================================
-- parse_full_report
-- ==========================================

/-- The 60-dash block separator of `parse_full_report`. -/
def sepChars : List Char :=
  "------------------------------------------------------------".data

def ipMarkerChars : List Char := "🔍 IP:".data

def scoreMarkerChars : List Char := "📊 Mandiant Score:".data

/-- Whole-pattern match of `r"🔍 IP:\s*(.*)"` at one position: the literal,
then a maximal greedy `\s*` (which may cross line breaks), then `(.*)`
capturing up to the next `\n` (Python `.` without `DOTALL`); `(.*)` always
succeeds, so the pattern matches exactly where the literal occurs. -/
def matchIPAt (s : List Char) : Option (List Char) :=
  match afterLit ipMarkerChars s with
  | none => none
  | some r => some ((dropPyWs r).takeWhile (fun c => c ≠ '\n'))

/-- Whole-pattern match of `r"📊 Mandiant Score:\s*(\d+)"` at one position:
the literal, then maximal `\s*`, then a maximal nonempty digit run
(shrinking `\s*` cannot expose a digit, so the form is deterministic). -/
def matchScoreAt (s : List Char) : Option Nat :=
  match afterLit scoreMarkerChars s with
  | none => none
  | some r =>
    let ds := (dropPyWs r).takeWhile Char.isDigit
    if ds.isEmpty then none else some (natOfDigits ds)

/-- What one block contributes to `parse_full_report`: after `strip()`,
a record is produced iff both regex searches succeed on the block
(an all-whitespace block is skipped by the source, and indeed neither
search can succeed on its empty strip). -/
def emitBlock (b : List Char) : Option IndicatorRecord :=
  match searchScan matchIPAt (pyStrip b), searchScan matchScoreAt (pyStrip b) with
  | some ipg, some sc => some ⟨String.mk (pyStrip ipg), sc⟩
  | _, _ => none

/-- The `for block in blocks` loop of `parse_full_report`, mirroring the
source: skip blocks that are empty after `strip()`, emit a record when
both searches succeed. -/
def fullLoop : List (List Char) → List IndicatorRecord → List IndicatorRecord
  | [], acc => acc
  | b :: bs, acc =>
    if (pyStrip b).isEmpty then fullLoop bs acc
    else
      match searchScan matchIPAt (pyStrip b), searchScan matchScoreAt (pyStrip b) with
      | some ipg, some sc => fullLoop bs (acc ++ [⟨String.mk (pyStrip ipg), sc⟩])
      | _, _ => fullLoop bs acc

/-- `parse_full_report` of the source: split on the 60-dash separator and
scan each block for the IP and Score markers. -/
def parse_full_report (text : String) : List IndicatorRecord :=
  fullLoop (pySplit sepChars text.data) []

-- ==========================================
-- parse_geolocation_report
-- ==========================================

def totalLabelChars : List Char := "Total de IPs analizadas:".data

def rateLabelChars : List Char := "Tasa de éxito:".data

def countriesLabelChars : List Char := "Países únicos encontrados:".data

def distMarkerChars : List Char := "DISTRIBUCIÓN POR PAÍS:".data

/-- Whole-pattern match of `r"Total de IPs analizadas:\s*(\d+)"` at one
position (literal, maximal `\s*`, maximal nonempty digit run); the raw
captured digit string is returned, as the source stores `match.group(1)`. -/
def matchTotalAt (s : List Char) : Option String :=
  match afterLit totalLabelChars s with
  | none => none
  | some r =>
    let ds := (dropPyWs r).takeWhile Char.isDigit
    if ds.isEmpty then none else some (String.mk ds)

/-- Whole-pattern match of `r"Tasa de éxito:\s*([\d\.]+)%"` at one position:
literal, maximal `\s*`, maximal nonempty `[\d\.]` run, then `%`.
Shrinking the greedy run only exposes another digit-or-dot, never `%`,
so requiring `%` right after the maximal run is exact. -/
def matchRateAt (s : List Char) : Option String :=
  match afterLit rateLabelChars s with
  | none => none
  | some r =>
    let r1 := dropPyWs r
    let ds := r1.takeWhile (fun c => c.isDigit || c = '.')
    if ds.isEmpty then none
    else
      match r1.drop ds.length with
      | '%' :: _ => some (String.mk ds)
      | _ => none

/-- Whole-pattern match of `r"Países únicos encontrados:\s*(\d+)"`. -/
def matchCountriesAt (s : List Char) : Option String :=
  match afterLit countriesLabelChars s with
  | none => none
  | some r =>
    let ds := (dropPyWs r).takeWhile Char.isDigit
    if ds.isEmpty then none else some (String.mk ds)

def ipsSuffixChars : List Char := "IPs):".data

/-- Match of `re.search(r"^\s*([A-Za-z\s]+)\s\((\d+)\sIPs\):", line)` on an
already-stripped line (so the leading `\s*` is empty and `^` anchors at 0).
Backtracking analysis: let `run` be the maximal `[A-Za-z\s]` prefix.  The
`\s\(` after the greedy group can only match with group 1 ending one short
of `run` (inside `run` no `(` occurs, and right after `run` no `\s`), so the
pattern matches iff `run` has length ≥ 2, ends in whitespace, is followed by
`(`, then a maximal nonempty digit run, one whitespace and the literal
`IPs):`.  Returns `(group(1).strip(), int(group(2)))` as the source uses. -/
def matchCountryHeader (l : List Char) : Option (String × Nat) :=
  let run := l.takeWhile (fun c => c.isAlpha || isPySpace c)
  if run.length < 2 then none
  else if isPySpace (run.getLast?.getD 'x') = false then none
  else
    match l.drop run.length with
    | '(' :: r1 =>
      let ds := r1.takeWhile Char.isDigit
      if ds.isEmpty then none
      else
        match r1.drop ds.length with
        | c :: r2 =>
          if isPySpace c ∧ ipsSuffixChars.isPrefixOf r2 then
            some (String.mk (pyStrip run.dropLast), natOfDigits ds)
          else none
        | [] => none
    | _ => none

/-- Lazy tail of the detail-line regex `...\s(.*?)\s\((.*?)\)`: find the
leftmost split point where a whitespace and `(` follow the lazy group 2 and
a `)` occurs later; group 3 runs up to the first `)` after that.  When a
candidate split has no closing `)`, Python backtracking grows group 2 past
it, which is exactly the fall-through here. -/
def ipTail : List Char → Option (List Char × List Char)
  | [] => none
  | a :: rest =>
    if isPySpace a ∧ rest.head? = some '(' then
      let afterParen := rest.tail
      let g3 := afterParen.takeWhile (fun c => c ≠ ')')
      if g3.length < afterParen.length then some ([], g3)
      else
        match ipTail rest with
        | some (g2, g3b) => some (a :: g2, g3b)
        | none => none
    else
      match ipTail rest with
      | some (g2, g3b) => some (a :: g2, g3b)
      | none => none

/-- Match of `re.search(r"^\s*•\s*([\d\.]+)\s-\s(.*?)\s\((.*?)\)", line)` on
an already-stripped line: `•`, maximal `\s*`, maximal nonempty `[\d\.]` run
(whose greedy end is forced, since shrinking exposes a digit-or-dot where
`\s` is required), one whitespace, `-`, one whitespace, then the lazy
location/isp tail.  Groups are kept raw, as the source stores them. -/
def matchIpLine : List Char → Option CountryDetail
  | [] => none
  | b :: r =>
    if b = '•' then
      let r1 := dropPyWs r
      let ipg := r1.takeWhile (fun c => c.isDigit || c = '.')
      if ipg.isEmpty then none
      else
        match r1.drop ipg.length with
        | w1 :: '-' :: w2 :: r3 =>
          if isPySpace w1 ∧ isPySpace w2 then
            match ipTail r3 with
            | some (g2, g3) => some ⟨String.mk ipg, String.mk g2, String.mk g3⟩
            | none => none
          else none
        | _ => none
    else none

/-- Python dict assignment `d[k] = v`: replace the value at `k` keeping its
insertion position, or append a fresh entry. -/
def dictSet {α : Type} (d : List (String × α)) (k : String) (v : α) : List (String × α) :=
  match d with
  | [] => [(k, v)]
  | (k', v') :: rest => if k' = k then (k, v) :: rest else (k', v') :: dictSet rest k v

/-- Python `d[k].append(x)` for a list-valued dict.  In the source the key
is always present when this runs (the current country was installed by its
header line); on an absent key this model is a no-op. -/
def dictAppend {α : Type} (d : List (String × List α)) (k : String) (x : α) :
    List (String × List α) :=
  d.map (fun p => if p.1 = k then (p.1, p.2 ++ [x]) else p)

/-- State of the distribution-scanning loop: accumulated per-country details,
the `current_country` cursor, and the `country_counts_list` rows. -/
structure DistState where
  details : List (String × List CountryDetail)
  current : Option String
  counts : List CountryCount
deriving DecidableEq

/-- One iteration of the `for line in dist_section.splitlines()` loop:
strip the line, skip it when empty, otherwise try the country-header regex
(resetting the country's detail list and appending a counts row), and only
then — when a current country is set — the detail-line regex. -/
def distStep (st : DistState) (line : List Char) : DistState :=
  if (pyStrip line).isEmpty then st
  else
    match matchCountryHeader (pyStrip line) with
    | some (c, n) => ⟨dictSet st.details c [], some c, st.counts ++ [⟨c, n⟩]⟩
    | none =>
      match st.current with
      | some cur =>
        match matchIpLine (pyStrip line) with
        | some d => ⟨dictAppend st.details cur d, st.current, st.counts⟩
        | none => st
      | none => st

/-- `parse_geolocation_report` of the source: the three summary searches over
the whole text, and — when the distribution marker occurs — the line scan of
`text.split(marker)[1]` (the segment after the first marker occurrence). -/
def parse_geolocation_report (text : String) : GeoData :=
  let cs := text.data
  let summary : GeoSummary :=
    ⟨searchScan matchTotalAt cs, searchScan matchRateAt cs, searchScan matchCountriesAt cs⟩
  match pySplit distMarkerChars cs with
  | _ :: dist :: _ =>
    let final := (pySplitlines dist).foldl distStep ⟨[], none, []⟩
    ⟨summary, final.details, final.counts⟩
  | _ => ⟨summary, [], []⟩

/-- Assoc-list read of a Python dict, for stating lookups in theorems. -/
def dictGet {α : Type} (d : List (String × α)) (k : String) : Option α :=
  (d.find? (fun p => p.1 == k)).map (fun p => p.2)

-- ==========================================
-- Chart functions (aggregation layer)
-- ==========================================

/-- `get_country_flag_emoji` of the source: strip the name, look it up in
the fixed mapping, fall back to the white flag. -/
def flagMapping : List (String × String) :=
  [("United States", "🇺🇸"), ("The Netherlands", "🇳🇱"), ("Germany", "🇩🇪"),
   ("China", "🇨🇳"), ("Spain", "🇪🇸"), ("Canada", "🇨🇦"), ("Singapore", "🇸🇬"),
   ("United Kingdom", "🇬🇧"), ("France", "🇫🇷"), ("Russia", "🇷🇺"),
   ("India", "🇮🇳"), ("Japan", "🇯🇵"), ("Brazil", "🇧🇷"), ("Mexico", "🇲🇽"),
   ("Italy", "🇮🇹"), ("Australia", "🇦🇺")]

def get_country_flag_emoji (country_name : String) : String :=
  (dictGet flagMapping (String.mk (pyStrip country_name.data))).getD "🏳️"

/-- Stable insertion into a list sorted descending by `key`: an element with
an equal key goes after the existing ones. -/
def insertDesc {α : Type} (key : α → Nat) (x : α) : List α → List α
  | [] => [x]
  | y :: ys => if key y < key x then x :: y :: ys else y :: insertDesc key x ys

/-- Deterministic model of the ordering produced by pandas
`DataFrame.sort_values(col, ascending=False)`: descending by `key`.  The
model is a stable insertion sort; the source's default `kind='quicksort'`
does not promise any particular tie order, and no claim settled here
depends on the tie order (see the note on claim C8). -/
def pandasSortDesc {α : Type} (key : α → Nat) : List α → List α
  | [] => []
  | x :: xs => insertDesc key x (pandasSortDesc key xs)

/-- Model of the pandas call `df.sort_values(..., inplace=...)` on a frame
holding `df`: first component is the value the call returns (`None` for
`inplace=True`), second is the contents of the receiver frame after the
call (replaced only when `inplace=True`).  The source always uses the
default `inplace=False`. -/
def pd_sort_values {α : Type} (key : α → Nat) (inplace : Bool) (df : List α) :
    Option (List α) × List α :=
  let s := pandasSortDesc key df
  if inplace then (none, s) else (some s, df)

/-- Model of `df.copy()`: returns a fresh frame with equal contents and
leaves the receiver unchanged (first component the copy, second the
receiver afterwards). -/
def pd_copy {α : Type} (df : List α) : List α × List α := (df, df)

/-- `create_category_bar_chart` of the source, reduced to its data flow:
`None` on an empty frame, otherwise the bar series is the frame sorted by
`Cantidad_IPs` descending.  First component models the rendered series,
second the contents of the caller's frame after the call. -/
def create_category_bar_chart (df : List CategoryRecord) :
    Option (List CategoryRecord) × List CategoryRecord :=
  if df.isEmpty then (none, df)
  else
    let (ret, dfAfter) := pd_sort_values (fun r => r.Cantidad_IPs) false df
    match ret with
    | some df_sorted => (some df_sorted, dfAfter)
    | none => (none, dfAfter)

/-- `create_top_scores_chart` of the source, reduced to its data flow:
`None` on an empty frame, otherwise `df.sort_values(by='Score',
ascending=False).head(top_n)` (the source's `top_n` defaults to 15). -/
def create_top_scores_chart (df : List IndicatorRecord) (top_n : Nat) :
    Option (List IndicatorRecord) × List IndicatorRecord :=
  if df.isEmpty then (none, df)
  else
    let (ret, dfAfter) := pd_sort_values (fun r => r.Score) false df
    match ret with
    | some df_sorted => (some (df_sorted.take top_n), dfAfter)
    | none => (none, dfAfter)

/-- A row of the geo chart's working frame after the
`df_plot['Label'] = ...` column assignment. -/
structure LabeledCount where
  Country : String
  Count : Nat
  Label : String
deriving DecidableEq

/-- `create_geo_country_chart` of the source, reduced to its data flow:
`None` on an empty frame; otherwise the source copies the frame
(`df.copy()`), adds the flag `Label` column to the copy only, and sorts the
copy by `Count` descending. -/
def create_geo_country_chart (df : List CountryCount) :
    Option (List LabeledCount) × List CountryCount :=
  if df.isEmpty then (none, df)
  else
    let (copyRet, dfAfter) := pd_copy df
    let df_plot : List LabeledCount :=
      copyRet.map (fun r =>
        ⟨r.Country, r.Count, get_country_flag_emoji r.Country ++ "  " ++ r.Country⟩)
    let (ret, _) := pd_sort_values (fun r => r.Count) false df_plot
    match ret with
    | some df_sorted => (some df_sorted, dfAfter)
    | none => (none, dfAfter)

-- ==========================================
-- generate_pdf_report (core decision logic)
-- ==========================================

/-- How a run of `generate_pdf_report` ends, as far as the core decides it:
`raised` — a parser raised and the run terminates without output;
`abortedNoData` — the all-three-empty check fired, "PDF cancelado";
`rendered` — the core proceeds to build charts and the document. -/
inductive RunOutcome where
  | raised : RunOutcome
  | abortedNoData : RunOutcome
  | rendered : RunOutcome
deriving DecidableEq

/-- The decision logic of `generate_pdf_report`: parse the three texts
(the category parse may raise, see `parse_categories_report`), then abort
iff all of `df_cats`, `df_full` and `geo_data['df_counts']` are empty. -/
def generate_pdf_report_core (cat_text full_text geo_text : String) : RunOutcome :=
  match parse_categories_report cat_text with
  | Except.error _ => RunOutcome.raised
  | Except.ok df_cats =>
    let df_full := parse_full_report full_text
    let geo_data := parse_geolocation_report geo_text
    if df_cats.isEmpty && df_full.isEmpty && geo_data.df_counts.isEmpty then
      RunOutcome.abortedNoData
    else
      RunOutcome.rendered

-- Concrete inputs used by the claim theorems below.

/-- Distribution text of the spec's own discrepancy example: a header
declaring 3 IPs followed by only two detail lines. -/
def c6text : String :=
  "DISTRIBUCIÓN POR PAÍS:\nFrance (3 IPs):\n• 1.2.3.4 - Paris (ISP Uno)\n• 5.6.7.8 - Lyon (ISP Dos)\n"

/-- Distribution text with the same country header twice. -/
def c10text : String :=
  "DISTRIBUCIÓN POR PAÍS:\nFrance (3 IPs):\n• 1.2.3.4 - Paris (ISP Uno)\n• 5.6.7.8 - Lyon (ISP Dos)\nFrance (2 IPs):\n• 9.9.9.9 - Nice (ISP Tres)\n"


-- ==========================================
-- Helper lemmas
-- ==========================================

lemma searchScan_nil {α : Type} (f : List Char → Option α) : searchScan f [] = f [] := rfl

lemma searchScan_eq_none_iff {α : Type} (f : List Char → Option α) (xs : List Char) :
    searchScan f xs = none ↔ ∀ i, f (xs.drop i) = none := by
  induction xs with
  | nil =>
    simp only [searchScan_nil, List.drop_nil]
    exact ⟨fun h _ => h, fun h => h 0⟩
  | cons c rest ih =>
    constructor
    · intro h i
      unfold searchScan at h
      cases hf : f (c :: rest) with
      | some v => rw [hf] at h; simp at h
      | none =>
        rw [hf] at h
        simp only [] at h
        cases i with
        | zero => exact hf
        | succ j => rw [List.drop_succ_cons]; exact (ih.mp h) j
    · intro h
      unfold searchScan
      have h0 := h 0
      rw [List.drop_zero] at h0
      rw [h0]
      exact ih.mpr (fun i => by have := h (i + 1); rwa [List.drop_succ_cons] at this)

lemma searchScan_eq_some_iff {α : Type} (f : List Char → Option α) (xs : List Char) (v : α) :
    searchScan f xs = some v ↔
      ∃ i, f (xs.drop i) = some v ∧ ∀ j < i, f (xs.drop j) = none := by
  induction xs with
  | nil =>
    simp only [searchScan_nil, List.drop_nil]
    constructor
    · intro h; exact ⟨0, h, fun j hj => absurd hj (Nat.not_lt_zero j)⟩
    · rintro ⟨i, h, -⟩; exact h
  | cons c rest ih =>
    constructor
    · intro h
      unfold searchScan at h
      cases hf : f (c :: rest) with
      | some w =>
        rw [hf] at h
        simp only [] at h
        refine ⟨0, ?_, fun j hj => absurd hj (Nat.not_lt_zero j)⟩
        rw [List.drop_zero, hf, h]
      | none =>
        rw [hf] at h
        simp only [] at h
        obtain ⟨i, h1, h2⟩ := ih.mp h
        refine ⟨i + 1, by rwa [List.drop_succ_cons], ?_⟩
        intro j hj
        cases j with
        | zero => exact hf
        | succ k => rw [List.drop_succ_cons]; exact h2 k (Nat.lt_of_succ_lt_succ hj)
    · rintro ⟨i, h1, h2⟩
      unfold searchScan
      cases i with
      | zero =>
        rw [List.drop_zero] at h1
        rw [h1]
      | succ k =>
        have h0 := h2 0 (Nat.succ_pos k)
        rw [List.drop_zero] at h0
        rw [h0]
        simp only []
        refine ih.mpr ⟨k, by rwa [List.drop_succ_cons] at h1, fun j hj => ?_⟩
        have := h2 (j + 1) (Nat.succ_lt_succ hj)
        rwa [List.drop_succ_cons] at this

lemma searchScan_isSome_iff {α : Type} (f : List Char → Option α) (xs : List Char) :
    (searchScan f xs).isSome ↔ ∃ i, (f (xs.drop i)).isSome := by
  rw [Option.isSome_iff_ne_none, ne_eq, searchScan_eq_none_iff]
  push_neg
  constructor
  · rintro ⟨i, hi⟩; exact ⟨i, Option.isSome_iff_ne_none.mpr hi⟩
  · rintro ⟨i, hi⟩; exact ⟨i, Option.isSome_iff_ne_none.mp hi⟩

lemma pySplitFuel_ne_nil (sep : List Char) (fuel : Nat) (xs acc : List Char) :
    pySplitFuel sep fuel xs acc ≠ [] := by
  induction fuel generalizing xs acc with
  | zero => simp [pySplitFuel]
  | succ n ih =>
    cases xs with
    | nil => simp [pySplitFuel]
    | cons c rest =>
      simp only [pySplitFuel]
      by_cases h : sep.isPrefixOf (c :: rest) ∧ sep ≠ []
      · simp [h]
      · simp only [if_neg h]; exact ih rest (c :: acc)

lemma pySplitFuel_length_one (sep : List Char) (fuel : Nat) (xs acc : List Char)
    (h : (pySplitFuel sep fuel xs acc).length = 1) :
    pySplitFuel sep fuel xs acc = [acc.reverse ++ xs] := by
  induction fuel generalizing xs acc with
  | zero => rfl
  | succ n ih =>
    cases xs with
    | nil => simp [pySplitFuel]
    | cons c rest =>
      simp only [pySplitFuel] at h ⊢
      by_cases hp : sep.isPrefixOf (c :: rest) ∧ sep ≠ []
      · rw [if_pos hp] at h
        exfalso
        have hne := pySplitFuel_ne_nil sep n (List.drop sep.length (c :: rest)) []
        have hpos : 0 < (pySplitFuel sep n (List.drop sep.length (c :: rest)) []).length :=
          List.length_pos.mpr hne
        simp only [List.length_cons] at h
        omega
      · rw [if_neg hp] at h ⊢
        rw [ih rest (c :: acc) h]
        simp

lemma pySplit_length_one (sep xs : List Char) (h : (pySplit sep xs).length = 1) :
    pySplit sep xs = [xs] := by
  have := pySplitFuel_length_one sep xs.length xs [] h
  simpa [pySplit] using this

lemma scan_matchIPAt_nil : searchScan matchIPAt [] = none := by decide

lemma scan_matchScoreAt_nil : searchScan matchScoreAt [] = none := by decide

/-- A block that strips to nothing contributes no record. -/
lemma emitBlock_of_strip_nil (b : List Char) (h : pyStrip b = []) : emitBlock b = none := by
  unfold emitBlock
  rw [h, scan_matchIPAt_nil]

lemma isEmpty_false_of_ne_nil {l : List Char} (h : l ≠ []) : l.isEmpty = false := by
  cases l with
  | nil => exact absurd rfl h
  | cons x xs => rfl

/-- The source's block loop accumulates exactly `filterMap emitBlock`,
in block order. -/
lemma fullLoop_eq_filterMap (bs : List (List Char)) (acc : List IndicatorRecord) :
    fullLoop bs acc = acc ++ bs.filterMap emitBlock := by
  induction bs generalizing acc with
  | nil => simp [fullLoop]
  | cons b rest ih =>
    rw [List.filterMap_cons, fullLoop]
    by_cases hpb : pyStrip b = []
    · rw [hpb, emitBlock_of_strip_nil b hpb]
      simp [ih]
    · rw [isEmpty_false_of_ne_nil hpb]
      simp only [emitBlock, Bool.false_eq_true, if_false]
      cases hip : searchScan matchIPAt (pyStrip b) with
      | none => simp [ih]
      | some ipg =>
        cases hsc : searchScan matchScoreAt (pyStrip b) with
        | none => simp [ih]
        | some sc => simp [ih]

lemma matchCountryHeader_nil : matchCountryHeader [] = none := rfl

lemma matchIpLine_nil : matchIpLine [] = none := rfl

lemma matchCountryHeader_bullet (r : List Char) : matchCountryHeader ('•' :: r) = none := by
  have h1 : '•'.isAlpha = false := by decide
  have h2 : isPySpace '•' = false := by decide
  unfold matchCountryHeader
  simp [List.takeWhile_cons, h1, h2]

/-- A line matched by the detail regex starts with `•`, which the country
header's `[A-Za-z\s]+` group cannot contain, so the two regexes never match
the same (stripped) line. -/
lemma matchIpLine_some_imp_header_none (l : List Char) (d : CountryDetail)
    (h : matchIpLine l = some d) : matchCountryHeader l = none := by
  cases l with
  | nil => rw [matchIpLine_nil] at h; exact Option.noConfusion h
  | cons b r =>
    by_cases hb : b = '•'
    · subst hb
      exact matchCountryHeader_bullet r
    · simp only [matchIpLine] at h
      rw [if_neg hb] at h
      exact Option.noConfusion h

/-- A line matched by the detail regex is not empty. -/
lemma matchIpLine_some_imp_ne_nil (l : List Char) (d : CountryDetail)
    (h : matchIpLine l = some d) : l ≠ [] := by
  intro hl
  rw [hl, matchIpLine_nil] at h
  exact Option.noConfusion h

lemma matchCountryHeader_some_imp_ne_nil (l : List Char) (c : String) (n : Nat)
    (h : matchCountryHeader l = some (c, n)) : l ≠ [] := by
  intro hl
  rw [hl, matchCountryHeader_nil] at h
  exact Option.noConfusion h

/-- Header branch of the scanning loop: install the country with a fresh
(empty) detail list and append a declared-count row. -/
lemma distStep_header (st : DistState) (line : List Char) (c : String) (n : Nat)
    (h : matchCountryHeader (pyStrip line) = some (c, n)) :
    distStep st line = ⟨dictSet st.details c [], some c, st.counts ++ [⟨c, n⟩]⟩ := by
  unfold distStep
  rw [isEmpty_false_of_ne_nil (matchCountryHeader_some_imp_ne_nil _ _ _ h), h]
  simp

/-- Detail branch with a current country: append to its list, leaving the
counts rows untouched. -/
lemma distStep_detail_current (st : DistState) (line : List Char) (d : CountryDetail)
    (c : String) (hcur : st.current = some c) (h : matchIpLine (pyStrip line) = some d) :
    distStep st line = ⟨dictAppend st.details c d, st.current, st.counts⟩ := by
  unfold distStep
  rw [isEmpty_false_of_ne_nil (matchIpLine_some_imp_ne_nil _ _ h),
    matchIpLine_some_imp_header_none _ _ h, hcur, h]
  simp [hcur]

/-- Detail line before any header: dropped, the state is unchanged. -/
lemma distStep_detail_no_current (st : DistState) (line : List Char) (d : CountryDetail)
    (hcur : st.current = none) (h : matchIpLine (pyStrip line) = some d) :
    distStep st line = st := by
  unfold distStep
  rw [isEmpty_false_of_ne_nil (matchIpLine_some_imp_ne_nil _ _ h),
    matchIpLine_some_imp_header_none _ _ h, hcur]
  simp

/-- The summary mapping is computed by the three searches over the whole
text, independently of the distribution section. -/
lemma parse_geo_summary (t : String) :
    (parse_geolocation_report t).summary =
      ⟨searchScan matchTotalAt t.data, searchScan matchRateAt t.data,
       searchScan matchCountriesAt t.data⟩ := by
  simp only [parse_geolocation_report]
  cases hsp : pySplit distMarkerChars t.data with
  | nil => rfl
  | cons a rest =>
    cases rest with
    | nil => rfl
    | cons dist r => rfl

/-- Without the distribution marker, the detail mapping and the counts
table are both empty. -/
lemma parse_geo_no_marker (t : String)
    (h : (pySplit distMarkerChars t.data).length = 1) :
    (parse_geolocation_report t).details = [] ∧
      (parse_geolocation_report t).df_counts = [] := by
  have hs := pySplit_length_one _ _ h
  simp only [parse_geolocation_report]
  rw [hs]
  exact ⟨rfl, rfl⟩

-- ==========================================
-- Claim theorems
-- ==========================================

/-- Claim C1 (code-bug evidence): the all-three-parsers-empty check is not
the only way the core terminates without output.  On a category text whose
score field `1.2.3` matches the regex but is not a valid float,
`parse_categories_report` raises `ValueError` and the run terminates with
no PDF, even though the indicator parser extracts a record. -/
theorem c1_parser_exception_terminates_without_output :
    generate_pdf_report_core "Phishing | 10 | 1.2.3"
        "🔍 IP: 9.9.9.9\n📊 Mandiant Score: 77" "" = RunOutcome.raised
    ∧ parse_full_report "🔍 IP: 9.9.9.9\n📊 Mandiant Score: 77" = [⟨"9.9.9.9", 77⟩] := by
  exact ⟨rfl, rfl⟩

/-- Claim C2 (code-bug evidence): the line `Phishing | 10 | 1.2.3`
matches the category pattern (second conjunct), yet instead of yielding
zero records without an exception, the parse raises `ValueError` from
`float("1.2.3")` (first conjunct). -/
theorem c2_malformed_score_field_raises :
    parse_categories_report "Phishing | 10 | 1.2.3" = Except.error ()
    ∧ (matchCatLine "Phishing | 10 | 1.2.3".data).isSome = true := by
  exact ⟨rfl, rfl⟩

/-- Claim C3 (counterexample): a text containing zero occurrences of the
dash block-separator on which `parse_full_report` returns a NON-empty
sequence — the whole text is treated as a single block, and it contains
both markers. -/
theorem c3_counterexample :
    (pySplit sepChars "🔍 IP: 5.5.5.5\n📊 Mandiant Score: 60".data).length = 1
    ∧ parse_full_report "🔍 IP: 5.5.5.5\n📊 Mandiant Score: 60" ≠ [] := by
  refine ⟨rfl, ?_⟩
  intro h
  exact absurd h (by decide)

/-- Claim C3 (amended): on input with zero occurrences of the dash
block-separator, `parse_full_report` never throws and treats the whole
text as a single block: it returns exactly the record extracted from that
block, hence at most one record (and the empty sequence iff the block
yields nothing). -/
theorem c3_amended_no_separator (t : String)
    (h : (pySplit sepChars t.data).length = 1) :
    parse_full_report t = (emitBlock t.data).toList
    ∧ (parse_full_report t).length ≤ 1 := by
  have hs := pySplit_length_one _ _ h
  have hmain : parse_full_report t = (emitBlock t.data).toList := by
    unfold parse_full_report
    rw [hs, fullLoop_eq_filterMap]
    cases he : emitBlock t.data <;> simp [he]
  refine ⟨hmain, ?_⟩
  rw [hmain]
  cases emitBlock t.data <;> simp

/-- Witness for the amended claim C3 at a concrete input. -/
theorem c3_amended_no_separator_witness :
    parse_full_report "hola" = (emitBlock "hola".data).toList
    ∧ (parse_full_report "hola").length ≤ 1 :=
  c3_amended_no_separator "hola" (by decide)

/-- Claim C4: `parse_full_report` emits one record per block exactly when
both the IP marker and the Score marker are found (as regex searches)
within that same block, and the output order is the block order — the
result is precisely `filterMap` of the per-block extraction over the
split blocks. -/
theorem c4_emit_iff_both_markers_in_block_order (text : String) :
    parse_full_report text = (pySplit sepChars text.data).filterMap emitBlock
    ∧ ∀ b : List Char,
        (emitBlock b).isSome ↔
          ((∃ i, (matchIPAt ((pyStrip b).drop i)).isSome)
            ∧ (∃ i, (matchScoreAt ((pyStrip b).drop i)).isSome)) := by
  constructor
  · unfold parse_full_report
    rw [fullLoop_eq_filterMap]
    simp
  · intro b
    rw [← searchScan_isSome_iff, ← searchScan_isSome_iff]
    unfold emitBlock
    cases hip : searchScan matchIPAt (pyStrip b) <;>
      cases hsc : searchScan matchScoreAt (pyStrip b) <;> simp

/-- Claim C5: the summary key `total` is present with value `v` exactly
when the total-analyzed line matches somewhere in the text (`v` being the
raw digit string captured at the leftmost match), and absent exactly when
no position matches; concretely, `Total de IPs analizadas: 42` yields
`some "42"` and a text without the line yields `none`. -/
theorem c5_total_key_present_iff_line_present (text : String) :
    (∀ v, (parse_geolocation_report text).summary.total = some v ↔
        ∃ i, matchTotalAt (text.data.drop i) = some v
          ∧ ∀ j < i, matchTotalAt (text.data.drop j) = none)
    ∧ ((parse_geolocation_report text).summary.total = none ↔
        ∀ i, matchTotalAt (text.data.drop i) = none)
    ∧ (parse_geolocation_report "Total de IPs analizadas: 42").summary.total = some "42"
    ∧ (parse_geolocation_report "Sin resumen").summary.total = none := by
  refine ⟨?_, ?_, ?_, ?_⟩
  · intro v
    rw [parse_geo_summary]
    exact searchScan_eq_some_iff matchTotalAt text.data v
  · rw [parse_geo_summary]
    exact searchScan_eq_none_iff matchTotalAt text.data
  · rfl
  · rfl

set_option maxRecDepth 16384 in
/-- Claim C6: declared header counts and accumulated detail-list lengths
are preserved independently, not reconciled: on the spec's example (header
`France (3 IPs):` followed by two detail lines) the counts table holds the
declared 3 while the detail list has length 2; in general a header step
contributes exactly its declared count as a row, and a detail step extends
only the current country's detail list, never the counts rows. -/
theorem c6_declared_count_and_detail_length_not_reconciled :
    (parse_geolocation_report c6text).df_counts = [⟨"France", 3⟩]
    ∧ (dictGet (parse_geolocation_report c6text).details "France").map List.length = some 2
    ∧ (∀ st line c n, matchCountryHeader (pyStrip line) = some (c, n) →
        (distStep st line).counts = st.counts ++ [⟨c, n⟩])
    ∧ (∀ st line d c, st.current = some c → matchIpLine (pyStrip line) = some d →
        (distStep st line).counts = st.counts
          ∧ (distStep st line).details = dictAppend st.details c d) := by
  refine ⟨by decide, by decide, ?_, ?_⟩
  · intro st line c n h
    rw [distStep_header st line c n h]
  · intro st line d c hcur h
    rw [distStep_detail_current st line d c hcur h]
    exact ⟨rfl, rfl⟩

/-- Witness for claim C6 at concrete inputs. -/
theorem c6_witness :
    (distStep ⟨[], none, []⟩ "Spain (7 IPs):".data).counts = [⟨"Spain", 7⟩]
    ∧ (distStep ⟨[("France", [])], some "France", [⟨"France", 3⟩]⟩
        "• 1.1.1.1 - Madrid (ISP X)".data).counts = [⟨"France", 3⟩] := by
  constructor
  · exact c6_declared_count_and_detail_length_not_reconciled.2.2.1
      ⟨[], none, []⟩ "Spain (7 IPs):".data "Spain" 7 (by decide)
  · exact (c6_declared_count_and_detail_length_not_reconciled.2.2.2
      ⟨[("France", [])], some "France", [⟨"France", 3⟩]⟩
      "• 1.1.1.1 - Madrid (ISP X)".data ⟨"1.1.1.1", "Madrid", "ISP X"⟩ "France"
      rfl (by decide)).1

/-- Claim C7: a detail line appends to the current country's list only when
a country header has been seen (with no current country the state is
unchanged, i.e. the line is dropped), and when the distribution marker is
absent the parser returns an empty detail mapping (and counts table)
without failing. -/
theorem c7_orphan_details_dropped_and_marker_optional :
    (∀ text : String, (pySplit distMarkerChars text.data).length = 1 →
        (parse_geolocation_report text).details = []
          ∧ (parse_geolocation_report text).df_counts = [])
    ∧ (∀ st line d, st.current = none → matchIpLine (pyStrip line) = some d →
        distStep st line = st)
    ∧ (∀ st line d c, st.current = some c → matchIpLine (pyStrip line) = some d →
        distStep st line = ⟨dictAppend st.details c d, st.current, st.counts⟩) := by
  refine ⟨fun t h => parse_geo_no_marker t h, ?_, ?_⟩
  · intro st line d hcur h
    exact distStep_detail_no_current st line d hcur h
  · intro st line d c hcur h
    exact distStep_detail_current st line d c hcur h

/-- Witness for claim C7 at concrete inputs. -/
theorem c7_witness :
    (parse_geolocation_report "sin marcador").details = []
    ∧ distStep ⟨[], none, []⟩ "• 1.1.1.1 - Madrid (ISP X)".data = ⟨[], none, []⟩ := by
  constructor
  · exact (c7_orphan_details_dropped_and_marker_optional.1 "sin marcador" (by decide)).1
  · exact c7_orphan_details_dropped_and_marker_optional.2.1
      ⟨[], none, []⟩ "• 1.1.1.1 - Madrid (ISP X)".data ⟨"1.1.1.1", "Madrid", "ISP X"⟩
      rfl (by decide)

/-- Claim C9: none of the chart-series transformations mutates its input
record collection: after each call the caller's frame holds exactly the
records it held before (the sorts are not in-place and the geo chart
mutates only its private copy). -/
theorem c9_chart_functions_preserve_input (dfc : List CategoryRecord)
    (dfi : List IndicatorRecord) (dfg : List CountryCount) :
    (create_category_bar_chart dfc).2 = dfc
    ∧ (create_top_scores_chart dfi 15).2 = dfi
    ∧ (create_geo_country_chart dfg).2 = dfg := by
  refine ⟨?_, ?_, ?_⟩
  · unfold create_category_bar_chart pd_sort_values
    by_cases h : dfc.isEmpty <;> simp [h]
  · unfold create_top_scores_chart pd_sort_values
    by_cases h : dfi.isEmpty <;> simp [h]
  · unfold create_geo_country_chart pd_sort_values pd_copy
    by_cases h : dfg.isEmpty <;> simp [h]

set_option maxRecDepth 16384 in
/-- Claim C10: a repeated country header overwrites rather than merges —
any header step resets that country's detail list to empty (discarding
what was accumulated) while appending a fresh counts row; on a concrete
text where `France` appears as a header twice, the details mapping keeps
only the detail line seen after the second header, while the counts table
has one row per header occurrence. -/
theorem c10_repeated_header_overwrites :
    (∀ st line c n, matchCountryHeader (pyStrip line) = some (c, n) →
        distStep st line = ⟨dictSet st.details c [], some c, st.counts ++ [⟨c, n⟩]⟩)
    ∧ (parse_geolocation_report c10text).details
        = [("France", [⟨"9.9.9.9", "Nice", "ISP Tres"⟩])]
    ∧ (parse_geolocation_report c10text).df_counts = [⟨"France", 3⟩, ⟨"France", 2⟩] := by
  refine ⟨?_, by decide, by decide⟩
  intro st line c n h
  exact distStep_header st line c n h

/-- Witness for claim C10 at a concrete input: the second `France` header
discards the accumulated details and appends a second counts row. -/
theorem c10_witness :
    distStep ⟨[("France", [⟨"1.2.3.4", "Paris", "ISP Uno"⟩])], some "France", [⟨"France", 3⟩]⟩
        "France (2 IPs):".data
      = ⟨[("France", [])], some "France", [⟨"France", 3⟩, ⟨"France", 2⟩]⟩ := by
  have h := c10_repeated_header_overwrites.1
    ⟨[("France", [⟨"1.2.3.4", "Paris", "ISP Uno"⟩])], some "France", [⟨"France", 3⟩]⟩
    "France (2 IPs):".data "France" 2 (by decide)
  rw [h]
  decide
